import Mathlib

/-!
Shallow embedding of `src/logic/contracts/safeContracts.ts` from the
safe-react repository: the per-chain contract-address table, the contract
lookup/instantiation functions, deployment-transaction construction and gas
estimation, and the version-dependent singleton-deployment resolution.

TypeScript/JavaScript semantics are made explicit:
  - a thrown exception is an `Except.error` carrying a `JsError`;
  - reading a property of `undefined` (e.g. `contracts[chainId].MultiSend`
    when `chainId` is not a key of the table) throws a `TypeError` naming the
    property being read;
  - `throw new Error(msg)` is `JsError.error msg`;
  - `a || b` on possibly-`undefined` object values is `orElseJS`;
  - module-level `let` bindings without an initialiser are `Option`-valued
    state, `none` meaning still `undefined`.

External imports that are not part of this repository (web3, the
`@gnosis.pm/safe-deployments` getters, `semver`) are either taken as abstract
function parameters or given their documented semantics; imports from other
files of this repository that are not available (`calculateGasOf`,
`getSafeInfo`, `getWeb3`, `_getChainId`, `getChainById`) are abstract
parameters as well, since every claim below is insensitive to their
behaviour beyond the signature.
-/

/-- JavaScript exception values thrown by this module: a `TypeError` from
reading a property of `undefined` (the property name is recorded), or an
`Error` constructed with a message. -/
inductive JsError where
  | typeError (prop : String)
  | error (msg : String)
deriving DecidableEq, Repr

/-- A chain identifier: a string-encoded integer (`ChainId` in the source). -/
abbrev ChainId := String

/-- The per-chain contract deployment record (interface `ContractDeployment`
in the source): one address per contract name. -/
structure ContractDeployment where
  MultiSend : String
  CompatibilityFallbackHandler : String
  GnosisSafeProxyFactory : String
  GnosisSafeL2 : String
  SignMessageLib : String
deriving DecidableEq, Repr

/-- The record stored under key `'57'` in the `contracts` table. -/
def deployment57 : ContractDeployment :=
  { MultiSend := "0x09645f834D432C0548B6c75F0cD4BEa2fCAac2Bd"
    CompatibilityFallbackHandler := "0xC397b8918a64f06b0dFba1653eCcE9fD68387326"
    GnosisSafeProxyFactory := "0x111dE2B36368ddDA41CCB0E335eb4a59A3750A1B"
    GnosisSafeL2 := "0x7e1eaA0f4BBDD5501dAb7542B405Ab7fc343105F"
    SignMessageLib := "0x90305FB725E56e042E8f4078e85e02408cA5D4E0" }

/-- The record stored under key `'5700'` in the `contracts` table. -/
def deployment5700 : ContractDeployment :=
  { MultiSend := "0xe3e0CBe5CD22A111EB032C14D052838cd2d4eA07"
    CompatibilityFallbackHandler := "0x41279A031F6A7C42188a006746E0BAfA6d9cB343"
    GnosisSafeProxyFactory := "0x25622d7aB63452822B45B0bfa79e7D2be6b1aE04"
    GnosisSafeL2 := "0x84C2130B89b080aC92b99d988480f63955BCA09A"
    SignMessageLib := "0x6586e66ceFaa4961361bAE42EB2c70d89220A576" }

/-- The static `contracts` table: indexing a JS object literal by a string
key yields the stored record, or `undefined` (`none`) when the key is absent.
Its only keys are `'57'` and `'5700'`. -/
def contracts (chainId : ChainId) : Option ContractDeployment :=
  if chainId = "57" then some deployment57
  else if chainId = "5700" then some deployment5700
  else none

/-- The keys of the `contracts` table. -/
def contractsKeys : List ChainId := ["57", "5700"]

/-- JS semantics of `contracts[chainId].fieldName`: reading a field of
`undefined` throws a `TypeError` naming the field. -/
def readField (chainId : ChainId) (field : ContractDeployment → String)
    (fieldName : String) : Except JsError String :=
  match contracts chainId with
  | none => .error (.typeError fieldName)
  | some d => .ok (field d)

/-- An opaque handle to a connected web3 provider (`Web3` in the source);
its identity is all that matters to the claims. -/
structure Web3 where
  token : Nat
deriving DecidableEq, Repr

/-- A web3 contract instance (`new web3.eth.Contract(abi, address)`): the
provider it was built from, the ABI it was constructed with (identified by
the ABI artifact name) and the bound address (`options.address`). -/
structure ContractInstance where
  web3 : Nat
  abi : String
  address : String
deriving DecidableEq, Repr

/-- `new web3.eth.Contract(abi, contractAddress)`. -/
def newContract (w : Web3) (abi : String) (address : String) : ContractInstance :=
  { web3 := w.token, abi := abi, address := address }

/-- `getGnosisSafeContractInstance`: reads `contracts[chainId].GnosisSafeL2`
(throwing a `TypeError` when the chain is not in the table), throws an
`Error` when the stored address is falsy (the empty string), and otherwise
builds a contract instance from the GnosisSafeL2 ABI at that address. -/
def getGnosisSafeContractInstance (web3 : Web3) (chainId : ChainId) :
    Except JsError ContractInstance :=
  match contracts chainId with
  | none => .error (.typeError "GnosisSafeL2")
  | some d =>
    let contractAddress := d.GnosisSafeL2
    if contractAddress = "" then
      .error (.error ("GnosisSafe contract not found for chainId: " ++ chainId))
    else
      .ok (newContract web3 "GnosisSafeL2" contractAddress)

/-- `getProxyFactoryContractInstance`: same shape over the
`GnosisSafeProxyFactory` field. -/
def getProxyFactoryContractInstance (web3 : Web3) (chainId : ChainId) :
    Except JsError ContractInstance :=
  match contracts chainId with
  | none => .error (.typeError "GnosisSafeProxyFactory")
  | some d =>
    let contractAddress := d.GnosisSafeProxyFactory
    if contractAddress = "" then
      .error (.error ("GnosisSafeProxyFactory contract not found for chainId: " ++ chainId))
    else
      .ok (newContract web3 "GnosisSafeProxyFactory" contractAddress)

/-- `getFallbackHandlerContractInstance`: same shape over the
`CompatibilityFallbackHandler` field. -/
def getFallbackHandlerContractInstance (web3 : Web3) (chainId : ChainId) :
    Except JsError ContractInstance :=
  match contracts chainId with
  | none => .error (.typeError "CompatibilityFallbackHandler")
  | some d =>
    let contractAddress := d.CompatibilityFallbackHandler
    if contractAddress = "" then
      .error (.error ("FallbackHandler contract not found for chainId: " ++ chainId))
    else
      .ok (newContract web3 "CompatibilityFallbackHandler" contractAddress)

/-- `getMultiSendContractInstance`: same shape over the `MultiSend` field. -/
def getMultiSendContractInstance (web3 : Web3) (chainId : ChainId) :
    Except JsError ContractInstance :=
  match contracts chainId with
  | none => .error (.typeError "MultiSend")
  | some d =>
    let contractAddress := d.MultiSend
    if contractAddress = "" then
      .error (.error ("MultiSend contract not found for chainId: " ++ chainId))
    else
      .ok (newContract web3 "MultiSend" contractAddress)

/-- `getSignMessageLibAddress`: declared return type `string | undefined`
(`Option String`); reads `contracts[chainId].SignMessageLib`, throws when the
chain is absent or the address falsy, otherwise returns the address. -/
def getSignMessageLibAddress (chainId : ChainId) :
    Except JsError (Option String) :=
  match contracts chainId with
  | none => .error (.typeError "SignMessageLib")
  | some d =>
    let contractAddress := d.SignMessageLib
    if contractAddress = "" then
      .error (.error ("SignMessageLib contract not found for chainId: " ++ chainId))
    else
      .ok (some contractAddress)

/-- `getSignMessageLibContractInstance`: same lookup as
`getSignMessageLibAddress` but returns a contract instance. -/
def getSignMessageLibContractInstance (web3 : Web3) (chainId : ChainId) :
    Except JsError ContractInstance :=
  match contracts chainId with
  | none => .error (.typeError "SignMessageLib")
  | some d =>
    let contractAddress := d.SignMessageLib
    if contractAddress = "" then
      .error (.error ("SignMessageLib contract not found for chainId: " ++ chainId))
    else
      .ok (newContract web3 "SignMessageLib" contractAddress)

/-! ### Version-dependent singleton-deployment resolution -/

/-- A parsed semantic version `major.minor.patch`. The safe versions handled
by `getSafeContractDeployment` are plain release versions, for which the
`semver` library's ordering is the lexicographic ordering on the three
numeric components. -/
structure Version where
  major : Nat
  minor : Nat
  patch : Nat
deriving DecidableEq, Repr

/-- Strict semver ordering on plain release versions (lexicographic). -/
def versionLt (a b : Version) : Bool :=
  decide (a.major < b.major) ||
    (decide (a.major = b.major) &&
      (decide (a.minor < b.minor) ||
        (decide (a.minor = b.minor) && decide (a.patch < b.patch))))

/-- `semverSatisfies(safeVersion, '<1.0.0')`. -/
def semverSatisfiesLt100 (v : Version) : Bool := versionLt v ⟨1, 0, 0⟩

/-- `semverSatisfies(safeVersion, '>=1.3.0')`. -/
def semverSatisfiesGe130 (v : Version) : Bool := !versionLt v ⟨1, 3, 0⟩

/-- The filter object passed to the `@gnosis.pm/safe-deployments` getters:
a version, and optionally a network identifier. -/
structure DeploymentFilter where
  version : Version
  network : Option String
deriving DecidableEq, Repr

/-- The deployment record returned by the `@gnosis.pm/safe-deployments`
getters; only its identity matters here, so it carries an ABI tag and a
default address. -/
structure SingletonDeployment where
  abi : String
  defaultAddress : String
deriving DecidableEq, Repr

/-- A getter of the shape of `getSafeSingletonDeployment` /
`getSafeL2SingletonDeployment`: library functions external to this
repository, taken as abstract parameters. -/
abbrev DeploymentGetter := DeploymentFilter → Option SingletonDeployment

/-- JS `a || b` on possibly-`undefined` object values: `undefined` is falsy,
any object truthy. -/
def orElseJS (a b : Option SingletonDeployment) : Option SingletonDeployment :=
  match a with
  | some x => some x
  | none => b

/-- The current chain's configuration as returned by `getChainById`
(external to this file); only its `l2` flag is read here. -/
structure ChainConfig where
  l2 : Bool
deriving DecidableEq, Repr

/-- `getSafeContractDeployment`: picks the L2 getter when the chain is
marked `l2` and the version satisfies `>=1.3.0` (legacy getter otherwise),
then tries a network-specific lookup, a network-independent lookup, and —
only for versions `<1.0.0` — a final lookup for version `1.0.0`.
`getSafeSingletonDeployment` / `getSafeL2SingletonDeployment` are the
external library getters; `chainConfig` and `networkId` model the results of
`getChainById(_getChainId())` and `_getChainId()`. -/
def getSafeContractDeployment (getSafeSingletonDeployment : DeploymentGetter)
    (getSafeL2SingletonDeployment : DeploymentGetter)
    (chainConfig : ChainConfig) (networkId : ChainId) (safeVersion : Version) :
    Option SingletonDeployment :=
  let useOldestContractVersion := semverSatisfiesLt100 safeVersion
  let useL2ContractVersion := chainConfig.l2 && semverSatisfiesGe130 safeVersion
  let getDeployment :=
    if useL2ContractVersion then getSafeL2SingletonDeployment
    else getSafeSingletonDeployment
  orElseJS (getDeployment { version := safeVersion, network := some networkId })
    (orElseJS (getDeployment { version := safeVersion, network := none })
      (if useOldestContractVersion then
        getDeployment { version := ⟨1, 0, 0⟩, network := none }
      else none))

/-! ### Module-level mutable state and the functions over it -/

/-- The module-level `let` bindings (`proxyFactoryMaster`, `safeMaster`,
`fallbackHandler`, `multiSend`): each is `undefined` (`none`) until
`instantiateSafeContracts` assigns it. This record is the whole of the
module's mutable state. -/
structure SafeContractsState where
  proxyFactoryMaster : Option ContractInstance
  safeMaster : Option ContractInstance
  fallbackHandler : Option ContractInstance
  multiSend : Option ContractInstance
deriving DecidableEq, Repr

/-- `instantiateSafeContracts`: rebuilds all four cached handles from the
current chain's addresses. `web3` and `chainId` model the results of
`getWeb3()` and `_getChainId()`. A throw from any of the four instance
getters propagates (and, in the source, leaves the remaining assignments
unexecuted); on success the previous state is entirely overwritten. -/
def instantiateSafeContracts (web3 : Web3) (chainId : ChainId)
    (_s : SafeContractsState) : Except JsError SafeContractsState :=
  match getProxyFactoryContractInstance web3 chainId with
  | .error e => .error e
  | .ok pf =>
    match getGnosisSafeContractInstance web3 chainId with
    | .error e => .error e
    | .ok sm =>
      match getFallbackHandlerContractInstance web3 chainId with
      | .error e => .error e
      | .ok fh =>
        match getMultiSendContractInstance web3 chainId with
        | .error e => .error e
        | .ok ms =>
          .ok { proxyFactoryMaster := some pf, safeMaster := some sm,
                fallbackHandler := some fh, multiSend := some ms }

/-- `ZERO_ADDRESS` imported from `ethAddresses` (not under `src/`); the
canonical zero address. No claim depends on its exact value. -/
def ZERO_ADDRESS : String := "0x0000000000000000000000000000000000000000"

/-- `EMPTY_DATA` imported from `ethTransactions` (not under `src/`); the
empty calldata string. No claim depends on its exact value. -/
def EMPTY_DATA : String := "0x"

/-- Abstract ABI encoders standing for web3's `encodeABI()` on the two
contract methods used by this module: `GnosisSafe.setup(...)` and
`GnosisSafeProxyFactory.createProxyWithNonce(...)`. Their outputs are opaque
strings. -/
structure AbiEncoders where
  encodeSetup : List String → Nat → String → String → String → String → Nat →
    String → String
  encodeCreateProxyWithNonce : String → String → Nat → String

/-- The method-call object returned by
`proxyFactoryMaster.methods.createProxyWithNonce(singleton, initializer,
saltNonce)`: the factory it is called on and the three arguments. -/
structure CreateProxyWithNonceCall where
  target : String
  singleton : String
  initializer : String
  saltNonce : Nat
deriving DecidableEq, Repr

/-- `getSafeDeploymentTransaction`: encodes
`safeMaster.setup(safeAccounts, numConfirmations, ZERO_ADDRESS, EMPTY_DATA,
fallbackHandler.options.address, ZERO_ADDRESS, 0, ZERO_ADDRESS)` and returns
the `createProxyWithNonce(safeMaster.options.address, data, salt)` call on
the proxy factory. Reading `.methods` / `.options` of a still-`undefined`
cached handle throws a `TypeError`, in the evaluation order of the source. -/
def getSafeDeploymentTransaction (s : SafeContractsState) (enc : AbiEncoders)
    (safeAccounts : List String) (numConfirmations : Nat)
    (safeCreationSalt : Nat) : Except JsError CreateProxyWithNonceCall :=
  match s.safeMaster with
  | none => .error (.typeError "methods")
  | some sm =>
    match s.fallbackHandler with
    | none => .error (.typeError "options")
    | some fh =>
      let gnosisSafeData := enc.encodeSetup safeAccounts numConfirmations
        ZERO_ADDRESS EMPTY_DATA fh.address ZERO_ADDRESS 0 ZERO_ADDRESS
      match s.proxyFactoryMaster with
      | none => .error (.typeError "methods")
      | some pf =>
        .ok { target := pf.address, singleton := sm.address,
              initializer := gnosisSafeData, saltNonce := safeCreationSalt }

/-- The parameter object passed to `calculateGasOf`. -/
structure GasParams where
  data : String
  sender : String
  toAddr : String
deriving DecidableEq, Repr

/-- `estimateGasForDeployingSafe`: builds the deployment transaction,
ABI-encodes it, obtains the raw estimate from `calculateGasOf` (a function
from another file of this repository, taken as an abstract parameter — the
`from` and `to` fields of its parameter object are named `sender` and
`toAddr` here, both being reserved in Lean) and returns `value * 2`. -/
def estimateGasForDeployingSafe (s : SafeContractsState) (enc : AbiEncoders)
    (calculateGasOf : GasParams → Nat) (safeAccounts : List String)
    (numConfirmations : Nat) (userAccount : String) (safeCreationSalt : Nat) :
    Except JsError Nat :=
  match getSafeDeploymentTransaction s enc safeAccounts numConfirmations
      safeCreationSalt with
  | .error e => .error e
  | .ok call =>
    let proxyFactoryData :=
      enc.encodeCreateProxyWithNonce call.singleton call.initializer
        call.saltNonce
    match s.proxyFactoryMaster with
    | none => .error (.typeError "options")
    | some pf =>
      let params : GasParams :=
        { data := proxyFactoryData
          sender := userAccount
          toAddr := pf.address }
      .ok (calculateGasOf params * 2)

/-! ### `getMasterCopyAddressFromProxyAddress` -/

/-- The caught exception value `e` in the `catch` block: all that the
handler does with it is call `e.log()`, so the model records whether the
value has a callable `log` method. -/
structure ThrownValue where
  hasLogMethod : Bool
deriving DecidableEq, Repr

/-- The relevant part of the response of `getSafeInfo`:
`res.implementation.value`. -/
structure SafeInfo where
  implementationValue : String
deriving DecidableEq, Repr

/-- `getMasterCopyAddressFromProxyAddress`: awaits `getSafeInfo` (a function
from another file of this repository, taken as an abstract parameter) and
returns `res.implementation.value` (logging to the console when it is falsy,
which does not change the result). When `getSafeInfo` throws, the `catch`
handler calls `e.log()`: if the caught value has a `log` method the handler
completes and the function returns the still-`undefined` `masterCopyAddress`;
otherwise `e.log` is not a function and calling it throws a secondary
`TypeError`. -/
def getMasterCopyAddressFromProxyAddress
    (getSafeInfo : String → Except ThrownValue SafeInfo)
    (proxyAddress : String) : Except JsError (Option String) :=
  match getSafeInfo proxyAddress with
  | .ok res => .ok (some res.implementationValue)
  | .error e =>
    if e.hasLogMethod then .ok none
    else .error (.typeError "log")

/-! ### Spec-side helper definitions used by the theorem statements -/

/-- The getter selected by getSafeContractDeployment: the L2 getter when the
chain is marked l2 and the version satisfies >=1.3.0, the legacy getter
otherwise (the condition is written exactly as in the source). -/
def selectedDeploymentGetter (g1 g2 : DeploymentGetter) (cfg : ChainConfig)
    (v : Version) : DeploymentGetter :=
  if cfg.l2 && semverSatisfiesGe130 v then g2 else g1

/-- The lookup cascade of getSafeContractDeployment for a fixed getter:
network-specific, then network-independent, then (for versions <1.0.0 only)
the 1.0.0 fallback. -/
def deploymentLookupSequence (gd : DeploymentGetter) (networkId : ChainId)
    (v : Version) : Option SingletonDeployment :=
  orElseJS (gd { version := v, network := some networkId })
    (orElseJS (gd { version := v, network := none })
      (if semverSatisfiesLt100 v then gd { version := ⟨1, 0, 0⟩, network := none }
      else none))

/-- The cached-handle state produced by a successful run of
instantiateSafeContracts over a deployment record: all four handles rebuilt
from the record's addresses. -/
def instantiatedState (web3 : Web3) (d : ContractDeployment) :
    SafeContractsState :=
  { proxyFactoryMaster := some (newContract web3 "GnosisSafeProxyFactory"
      d.GnosisSafeProxyFactory)
    safeMaster := some (newContract web3 "GnosisSafeL2" d.GnosisSafeL2)
    fallbackHandler := some (newContract web3 "CompatibilityFallbackHandler"
      d.CompatibilityFallbackHandler)
    multiSend := some (newContract web3 "MultiSend" d.MultiSend) }

/-! ### Theorems -/

/-- C1: for every cached-handle state in which the proxy factory, safe
master and fallback handler are instantiated, every encoder, every
underlying calculateGasOf function and every list of owner accounts,
confirmation count, user account and creation salt,
estimateGasForDeployingSafe resolves to exactly 2 times the raw estimate
that calculateGasOf returns for the encoded deployment data sent from the
user account to the proxy factory. -/
theorem estimateGasForDeployingSafe_doubles_raw_estimate
    (s : SafeContractsState) (enc : AbiEncoders)
    (calculateGasOf : GasParams → Nat) (safeAccounts : List String)
    (numConfirmations : Nat) (userAccount : String) (safeCreationSalt : Nat)
    (pf sm fh : ContractInstance)
    (hpf : s.proxyFactoryMaster = some pf) (hsm : s.safeMaster = some sm)
    (hfh : s.fallbackHandler = some fh) :
    estimateGasForDeployingSafe s enc calculateGasOf safeAccounts
        numConfirmations userAccount safeCreationSalt =
      .ok (2 * calculateGasOf
        { data := enc.encodeCreateProxyWithNonce sm.address
            (enc.encodeSetup safeAccounts numConfirmations ZERO_ADDRESS
              EMPTY_DATA fh.address ZERO_ADDRESS 0 ZERO_ADDRESS)
            safeCreationSalt
          sender := userAccount
          toAddr := pf.address }) := by
  simp [estimateGasForDeployingSafe, getSafeDeploymentTransaction, hpf, hsm,
    hfh, Nat.mul_comm]

/-- Witness for C1: a concrete instantiated state, constant encoders and a
constant raw estimate of 21000 give a doubled result of 42000. -/
theorem estimateGasForDeployingSafe_doubles_raw_estimate_witness :
    estimateGasForDeployingSafe
      { proxyFactoryMaster := some ⟨0, "GnosisSafeProxyFactory", "0xPF"⟩
        safeMaster := some ⟨0, "GnosisSafeL2", "0xGS"⟩
        fallbackHandler := some ⟨0, "CompatibilityFallbackHandler", "0xFH"⟩
        multiSend := some ⟨0, "MultiSend", "0xMS"⟩ }
      ⟨fun _ _ _ _ _ _ _ _ => "setupData", fun _ _ _ => "createData"⟩
      (fun _ => 21000) [] 1 "0xUser" 0 = .ok 42000 := by
  have h := estimateGasForDeployingSafe_doubles_raw_estimate
    { proxyFactoryMaster := some ⟨0, "GnosisSafeProxyFactory", "0xPF"⟩
      safeMaster := some ⟨0, "GnosisSafeL2", "0xGS"⟩
      fallbackHandler := some ⟨0, "CompatibilityFallbackHandler", "0xFH"⟩
      multiSend := some ⟨0, "MultiSend", "0xMS"⟩ }
    ⟨fun _ _ _ _ _ _ _ _ => "setupData", fun _ _ _ => "createData"⟩
    (fun _ => 21000) [] 1 "0xUser" 0 ⟨0, "GnosisSafeProxyFactory", "0xPF"⟩
    ⟨0, "GnosisSafeL2", "0xGS"⟩ ⟨0, "CompatibilityFallbackHandler", "0xFH"⟩
    rfl rfl rfl
  simpa using h

/-- C2: for every chain identifier other than the two keys of the contracts
table, each of the six lookup functions throws synchronously: indexing the
table yields undefined and reading the contract field of it raises a
TypeError reporting the missing configuration. -/
theorem lookups_throw_for_unsupported_chain (web3 : Web3) (chainId : ChainId)
    (h57 : chainId ≠ "57") (h5700 : chainId ≠ "5700") :
    getGnosisSafeContractInstance web3 chainId =
        .error (.typeError "GnosisSafeL2") ∧
    getProxyFactoryContractInstance web3 chainId =
        .error (.typeError "GnosisSafeProxyFactory") ∧
    getFallbackHandlerContractInstance web3 chainId =
        .error (.typeError "CompatibilityFallbackHandler") ∧
    getMultiSendContractInstance web3 chainId =
        .error (.typeError "MultiSend") ∧
    getSignMessageLibAddress chainId =
        .error (.typeError "SignMessageLib") ∧
    getSignMessageLibContractInstance web3 chainId =
        .error (.typeError "SignMessageLib") := by
  have hc : contracts chainId = none := by
    simp [contracts, h57, h5700]
  refine ⟨?_, ?_, ?_, ?_, ?_, ?_⟩ <;>
    simp [getGnosisSafeContractInstance, getProxyFactoryContractInstance,
      getFallbackHandlerContractInstance, getMultiSendContractInstance,
      getSignMessageLibAddress, getSignMessageLibContractInstance, hc]

/-- Witness for C2: chain identifier 1 (Ethereum mainnet) is not in the
table, and all six lookups throw. -/
theorem lookups_throw_for_unsupported_chain_witness :
    getGnosisSafeContractInstance ⟨0⟩ "1" =
        .error (.typeError "GnosisSafeL2") ∧
    getProxyFactoryContractInstance ⟨0⟩ "1" =
        .error (.typeError "GnosisSafeProxyFactory") ∧
    getFallbackHandlerContractInstance ⟨0⟩ "1" =
        .error (.typeError "CompatibilityFallbackHandler") ∧
    getMultiSendContractInstance ⟨0⟩ "1" =
        .error (.typeError "MultiSend") ∧
    getSignMessageLibAddress "1" =
        .error (.typeError "SignMessageLib") ∧
    getSignMessageLibContractInstance ⟨0⟩ "1" =
        .error (.typeError "SignMessageLib") :=
  lookups_throw_for_unsupported_chain ⟨0⟩ "1" (by decide) (by decide)

/-- C3: both keys of the contracts table resolve to complete records (all
five contract names map to non-empty address strings), and for both chains
the SignMessageLib address lookup and the four instance lookups succeed,
each binding the recorded address. -/
theorem supported_chains_resolve_completely (web3 : Web3) :
    contractsKeys = ["57", "5700"] ∧
    contracts "57" = some deployment57 ∧
    contracts "5700" = some deployment5700 ∧
    (deployment57.MultiSend ≠ "" ∧
      deployment57.CompatibilityFallbackHandler ≠ "" ∧
      deployment57.GnosisSafeProxyFactory ≠ "" ∧
      deployment57.GnosisSafeL2 ≠ "" ∧
      deployment57.SignMessageLib ≠ "") ∧
    (deployment5700.MultiSend ≠ "" ∧
      deployment5700.CompatibilityFallbackHandler ≠ "" ∧
      deployment5700.GnosisSafeProxyFactory ≠ "" ∧
      deployment5700.GnosisSafeL2 ≠ "" ∧
      deployment5700.SignMessageLib ≠ "") ∧
    getSignMessageLibAddress "57" = .ok (some deployment57.SignMessageLib) ∧
    getSignMessageLibAddress "5700" = .ok (some deployment5700.SignMessageLib) ∧
    getGnosisSafeContractInstance web3 "57" =
      .ok (newContract web3 "GnosisSafeL2" deployment57.GnosisSafeL2) ∧
    getGnosisSafeContractInstance web3 "5700" =
      .ok (newContract web3 "GnosisSafeL2" deployment5700.GnosisSafeL2) ∧
    getProxyFactoryContractInstance web3 "57" =
      .ok (newContract web3 "GnosisSafeProxyFactory"
        deployment57.GnosisSafeProxyFactory) ∧
    getProxyFactoryContractInstance web3 "5700" =
      .ok (newContract web3 "GnosisSafeProxyFactory"
        deployment5700.GnosisSafeProxyFactory) ∧
    getFallbackHandlerContractInstance web3 "57" =
      .ok (newContract web3 "CompatibilityFallbackHandler"
        deployment57.CompatibilityFallbackHandler) ∧
    getFallbackHandlerContractInstance web3 "5700" =
      .ok (newContract web3 "CompatibilityFallbackHandler"
        deployment5700.CompatibilityFallbackHandler) ∧
    getMultiSendContractInstance web3 "57" =
      .ok (newContract web3 "MultiSend" deployment57.MultiSend) ∧
    getMultiSendContractInstance web3 "5700" =
      .ok (newContract web3 "MultiSend" deployment5700.MultiSend) ∧
    getSignMessageLibContractInstance web3 "57" =
      .ok (newContract web3 "SignMessageLib" deployment57.SignMessageLib) ∧
    getSignMessageLibContractInstance web3 "5700" =
      .ok (newContract web3 "SignMessageLib" deployment5700.SignMessageLib) := by
  refine ⟨rfl, rfl, rfl, by decide, by decide, ?_, ?_, ?_, ?_, ?_, ?_, ?_, ?_,
    ?_, ?_, ?_, ?_⟩ <;>
    simp [getSignMessageLibAddress, getGnosisSafeContractInstance,
      getProxyFactoryContractInstance, getFallbackHandlerContractInstance,
      getMultiSendContractInstance, getSignMessageLibContractInstance,
      contracts, deployment57, deployment5700, newContract]


/-- C4: getSafeContractDeployment resolves in order: the network-specific
lookup for the requested version first; when it fails, the
network-independent lookup for that version; when both fail and the version
satisfies <1.0.0, the final lookup for version 1.0.0; and when both fail
and the version does not satisfy <1.0.0, undefined. -/
theorem getSafeContractDeployment_resolution_order
    (g1 g2 : DeploymentGetter) (cfg : ChainConfig) (networkId : ChainId)
    (v : Version) :
    (∀ d, selectedDeploymentGetter g1 g2 cfg v
          { version := v, network := some networkId } = some d →
        getSafeContractDeployment g1 g2 cfg networkId v = some d) ∧
    (selectedDeploymentGetter g1 g2 cfg v
          { version := v, network := some networkId } = none →
      ∀ d, selectedDeploymentGetter g1 g2 cfg v
            { version := v, network := none } = some d →
        getSafeContractDeployment g1 g2 cfg networkId v = some d) ∧
    (selectedDeploymentGetter g1 g2 cfg v
          { version := v, network := some networkId } = none →
      selectedDeploymentGetter g1 g2 cfg v
          { version := v, network := none } = none →
      semverSatisfiesLt100 v = true →
        getSafeContractDeployment g1 g2 cfg networkId v =
          selectedDeploymentGetter g1 g2 cfg v
            { version := ⟨1, 0, 0⟩, network := none }) ∧
    (selectedDeploymentGetter g1 g2 cfg v
          { version := v, network := some networkId } = none →
      selectedDeploymentGetter g1 g2 cfg v
          { version := v, network := none } = none →
      semverSatisfiesLt100 v = false →
        getSafeContractDeployment g1 g2 cfg networkId v = none) := by
  unfold getSafeContractDeployment selectedDeploymentGetter orElseJS
  dsimp only
  refine ⟨?_, ?_, ?_, ?_⟩
  · intro d hd
    rw [hd]
  · intro h1 d hd
    rw [h1, hd]
  · intro h1 h2 h3
    unfold semverSatisfiesLt100 at h3 ⊢
    rw [h1, h2, h3]
    rfl
  · intro h1 h2 h3
    unfold semverSatisfiesLt100 at h3 ⊢
    rw [h1, h2, h3]
    rfl

/-- Witness for C4: with both getters constantly failing, a non-l2 chain and
version 1.3.0 (which does not satisfy <1.0.0), resolution returns none. -/
theorem getSafeContractDeployment_resolution_order_witness :
    getSafeContractDeployment (fun _ => none) (fun _ => none) ⟨false⟩ "57"
      ⟨1, 3, 0⟩ = none :=
  (getSafeContractDeployment_resolution_order (fun _ => none) (fun _ => none)
    ⟨false⟩ "57" ⟨1, 3, 0⟩).2.2.2 rfl rfl (by decide)

/-- C5: getSafeContractDeployment runs its lookup cascade with the L2 getter
exactly when the chain configuration is marked l2 and the requested version
does not fall below 1.3.0, and with the legacy getter in every other case. -/
theorem getSafeContractDeployment_l2_selection
    (g1 g2 : DeploymentGetter) (cfg : ChainConfig) (networkId : ChainId)
    (v : Version) :
    getSafeContractDeployment g1 g2 cfg networkId v =
      if cfg.l2 = true ∧ versionLt v ⟨1, 3, 0⟩ = false then
        deploymentLookupSequence g2 networkId v
      else
        deploymentLookupSequence g1 networkId v := by
  unfold getSafeContractDeployment deploymentLookupSequence
    semverSatisfiesGe130
  rcases hl2 : cfg.l2 <;> rcases hlt : versionLt v ⟨1, 3, 0⟩ <;> simp [hl2, hlt]

/-- C6 counterexample: when getSafeInfo throws a value that has a log
method, getMasterCopyAddressFromProxyAddress catches the exception and
returns undefined — a normal result — rather than surfacing the failure. -/
theorem getMasterCopyAddress_recovers_on_loggable_exception :
    getMasterCopyAddressFromProxyAddress (fun _ => .error ⟨true⟩)
      "0xProxy" = .ok none := rfl

/-- C6 amended: when getSafeInfo raises an exception, the catch handler
calls e.log() on the caught value: if the value has a log method the
function recovers locally and returns undefined as a normal result, and
only when it lacks one does a secondary TypeError propagate — the original
failure is never surfaced unchanged. -/
theorem getMasterCopyAddress_catch_behaviour
    (getSafeInfo : String → Except ThrownValue SafeInfo)
    (proxyAddress : String) (e : ThrownValue)
    (he : getSafeInfo proxyAddress = .error e) :
    getMasterCopyAddressFromProxyAddress getSafeInfo proxyAddress =
      if e.hasLogMethod then .ok none else .error (.typeError "log") := by
  simp [getMasterCopyAddressFromProxyAddress, he]

/-- Witness for the C6 amended theorem: a concrete getSafeInfo throwing a
loggable value yields the recovered result undefined. -/
theorem getMasterCopyAddress_catch_behaviour_witness :
    getMasterCopyAddressFromProxyAddress (fun _ => .error ⟨true⟩)
      "0xAnotherProxy" = .ok none := by
  have h := getMasterCopyAddress_catch_behaviour (fun _ => .error ⟨true⟩)
    "0xAnotherProxy" ⟨true⟩ rfl
  simpa using h

/-- C10: whenever getSafeInfo throws a value without a log method (such as
an ordinary Error), the catch handler of getMasterCopyAddressFromProxyAddress
raises a secondary TypeError from calling e.log() instead of completing and
returning undefined. -/
theorem getMasterCopyAddress_handler_raises_without_log
    (getSafeInfo : String → Except ThrownValue SafeInfo)
    (proxyAddress : String) (e : ThrownValue)
    (he : getSafeInfo proxyAddress = .error e)
    (hlog : e.hasLogMethod = false) :
    getMasterCopyAddressFromProxyAddress getSafeInfo proxyAddress =
      .error (.typeError "log") := by
  simp [getMasterCopyAddressFromProxyAddress, he, hlog]

/-- Witness for C10: a concrete getSafeInfo throwing a log-less value makes
the handler itself raise. -/
theorem getMasterCopyAddress_handler_raises_without_log_witness :
    getMasterCopyAddressFromProxyAddress (fun _ => .error ⟨false⟩)
      "0xProxyNoLog" = .error (.typeError "log") :=
  getMasterCopyAddress_handler_raises_without_log (fun _ => .error ⟨false⟩)
    "0xProxyNoLog" ⟨false⟩ rfl rfl

/-- C7: a call to instantiateSafeContracts ignores the previous values of
all four module-level cached handles (the result is the same from any prior
state, so repeated calls are last-write-wins), and on any chain of the
contracts table it overwrites every handle with an instance built from that
chain's addresses; the SafeContractsState record is the entirety of the
module's mutable state, so nothing else is modified. -/
theorem instantiateSafeContracts_overwrites_all_handles
    (web3 : Web3) (chainId : ChainId) (s sPrev : SafeContractsState) :
    instantiateSafeContracts web3 chainId s =
      instantiateSafeContracts web3 chainId sPrev ∧
    (chainId = "57" ∨ chainId = "5700" →
      ∃ d, contracts chainId = some d ∧
        instantiateSafeContracts web3 chainId s =
          .ok { proxyFactoryMaster := some (newContract web3
                  "GnosisSafeProxyFactory" d.GnosisSafeProxyFactory)
                safeMaster := some (newContract web3 "GnosisSafeL2"
                  d.GnosisSafeL2)
                fallbackHandler := some (newContract web3
                  "CompatibilityFallbackHandler" d.CompatibilityFallbackHandler)
                multiSend := some (newContract web3 "MultiSend"
                  d.MultiSend) }) := by
  refine ⟨rfl, ?_⟩
  rintro (h | h) <;> subst h
  · exact ⟨deployment57, rfl, rfl⟩
  · exact ⟨deployment5700, rfl, rfl⟩

/-- Witness for C7: on chain 57, from two different prior states, the call
rebuilds all four handles from the chain-57 addresses. -/
theorem instantiateSafeContracts_overwrites_all_handles_witness :
    instantiateSafeContracts ⟨7⟩ "57" ⟨none, none, none, none⟩ =
      instantiateSafeContracts ⟨7⟩ "57"
        ⟨some ⟨7, "GnosisSafeProxyFactory", "0xOld"⟩, none, none, none⟩ ∧
    instantiateSafeContracts ⟨7⟩ "57" ⟨none, none, none, none⟩ =
      .ok (instantiatedState ⟨7⟩ deployment57) := by
  have h := instantiateSafeContracts_overwrites_all_handles ⟨7⟩ "57"
    ⟨none, none, none, none⟩
    ⟨some ⟨7, "GnosisSafeProxyFactory", "0xOld"⟩, none, none, none⟩
  obtain ⟨d, hd, hres⟩ := h.2 (Or.inl rfl)
  have h4 : d = deployment57 := by
    have h5 : some d = some deployment57 := by
      rw [← hd]
      rfl
    injection h5
  subst h4
  exact ⟨h.1, hres⟩

/-- C8: for every chain in the contracts table,
getGnosisSafeContractInstance binds the safe master-copy handle to that
chain's GnosisSafeL2 address (the table has no separate legacy/L1 singleton
field at all), and consequently after instantiateSafeContracts the
createProxyWithNonce call built by getSafeDeploymentTransaction always
points the deployed proxy at that L2 singleton address. -/
theorem gnosisSafe_binds_l2_singleton
    (web3 : Web3) (chainId : ChainId) (d : ContractDeployment)
    (hc : contracts chainId = some d) :
    getGnosisSafeContractInstance web3 chainId =
      .ok (newContract web3 "GnosisSafeL2" d.GnosisSafeL2) ∧
    (∀ s sNew : SafeContractsState, ∀ enc : AbiEncoders,
      ∀ accounts : List String, ∀ numConfirmations salt : Nat,
      instantiateSafeContracts web3 chainId s = .ok sNew →
      ∃ call, getSafeDeploymentTransaction sNew enc accounts numConfirmations
          salt = .ok call ∧ call.singleton = d.GnosisSafeL2) := by
  have hcase : (chainId = "57" ∧ d = deployment57) ∨
      (chainId = "5700" ∧ d = deployment5700) := by
    by_cases h57 : chainId = "57"
    · subst h57
      left
      refine ⟨rfl, ?_⟩
      have : some deployment57 = some d := by
        simpa [contracts] using hc
      exact (Option.some_inj.mp this).symm
    · by_cases h5700 : chainId = "5700"
      · subst h5700
        right
        refine ⟨rfl, ?_⟩
        have : some deployment5700 = some d := by
          simpa [contracts, h57] using hc
        exact (Option.some_inj.mp this).symm
      · exfalso
        simp [contracts, h57, h5700] at hc
  rcases hcase with ⟨h1, h2⟩ | ⟨h1, h2⟩
  · subst h1
    subst h2
    refine ⟨rfl, ?_⟩
    intro s sNew enc accounts numConfirmations salt hinst
    rw [show instantiateSafeContracts web3 "57" s =
      Except.ok (instantiatedState web3 deployment57) from rfl] at hinst
    injection hinst with h3
    subst h3
    exact ⟨_, rfl, rfl⟩
  · subst h1
    subst h2
    refine ⟨rfl, ?_⟩
    intro s sNew enc accounts numConfirmations salt hinst
    rw [show instantiateSafeContracts web3 "5700" s =
      Except.ok (instantiatedState web3 deployment5700) from rfl] at hinst
    injection hinst with h3
    subst h3
    exact ⟨_, rfl, rfl⟩

/-- Witness for C8: on chain 5700, the safe master handle is bound to the
table's GnosisSafeL2 address and the deployment call targets it. -/
theorem gnosisSafe_binds_l2_singleton_witness :
    getGnosisSafeContractInstance ⟨3⟩ "5700" =
      .ok (newContract ⟨3⟩ "GnosisSafeL2" deployment5700.GnosisSafeL2) ∧
    getSafeDeploymentTransaction (instantiatedState ⟨3⟩ deployment5700)
        ⟨fun _ _ _ _ _ _ _ _ => "setupData", fun _ _ _ => "createData"⟩
        [] 1 0 =
      .ok { target := deployment5700.GnosisSafeProxyFactory
            singleton := deployment5700.GnosisSafeL2
            initializer := "setupData"
            saltNonce := 0 } := by
  have h := gnosisSafe_binds_l2_singleton ⟨3⟩ "5700" deployment5700 rfl
  exact ⟨h.1, rfl⟩

/-- C9: getSignMessageLibAddress never returns undefined: for every chain
identifier it either throws, or returns the non-empty SignMessageLib
address recorded in the contracts table for that chain. -/
theorem getSignMessageLibAddress_never_undefined (chainId : ChainId) :
    (∃ e, getSignMessageLibAddress chainId = .error e) ∨
    (∃ d, contracts chainId = some d ∧ d.SignMessageLib ≠ "" ∧
      getSignMessageLibAddress chainId = .ok (some d.SignMessageLib)) := by
  by_cases h57 : chainId = "57"
  · subst h57
    right
    exact ⟨deployment57, rfl, by decide, rfl⟩
  by_cases h5700 : chainId = "5700"
  · subst h5700
    right
    exact ⟨deployment5700, rfl, by decide, rfl⟩
  · left
    exact ⟨.typeError "SignMessageLib",
      by simp [getSignMessageLibAddress, contracts, h57, h5700]⟩
